import Mathlib

/-!
Verification development for the real-time messaging core of the chat-app
repository. The definitions below are a shallow embedding of the socket
layer (src/server/socket.js) together with the Mongoose message and
conversation schemas (models/Message.js, models/Conversation.js).

Conventions of the embedding:
  * Mongo object ids and user ids are opaque strings.
  * Timestamps are naturals (milliseconds).
  * A Mongoose Map of Number is an association list from String to Nat.
  * A handler is a pure function from server state and event payload to
    the new server state paired with the list of outbound emissions, in
    emission order.
  * Message.save fails exactly when a required String field is the empty
    string (Mongoose required validation rejects the empty string but
    accepts whitespace); the only payload-dependent failure of the send
    save in the handler is an empty content, which is how the
    try/catch is reached.
  * setTimeout callbacks are modelled as explicit timer records stored in
    the state; firing a timer is a separate operation invoked by a trace.
-/

namespace ChatApp

/-- Status enum of the message schema: sent, delivered, read. -/
inductive MessageStatus where
  | sent
  | delivered
  | read
deriving DecidableEq, Repr

/-- A message document as given by messageSchema in models/Message.js. -/
structure Message where
  mid : String
  conversationId : String
  sender : String
  content : String
  messageType : String
  isRead : Bool
  readBy : List String
  status : MessageStatus
  isSenderOnline : Bool
  deliveredAt : Option Nat
  readAt : Option Nat
  createdAt : Nat
deriving DecidableEq, Repr

/-- A conversation document as given by conversationSchema in
models/Conversation.js; unreadCount is a Map of Number. -/
structure Conversation where
  cid : String
  participants : List String
  lastMessage : Option String
  lastMessageContent : Option String
  lastMessageTime : Option Nat
  unreadCount : List (String × Nat)
deriving DecidableEq, Repr

/-- A pending delivered transition scheduled by the message:send handler
(the 100 ms setTimeout), keyed by the message id. -/
structure DeliveredTimer where
  messageId : String
  conversationId : String
  sender : String
  clientTempId : Option String
  fireAt : Nat
deriving DecidableEq, Repr

/-- The persistent and process-wide state touched by the send, read and
markAllRead handlers: the message and conversation collections, the
connectedUsers map (as the list of online user ids) and the pending
delivered timers. -/
structure ServerState where
  messages : List Message
  conversations : List Conversation
  connected : List String
  pending : List DeliveredTimer
deriving DecidableEq, Repr

/-- Routing target of an emission: a socket.io room or the socket of
one user. -/
inductive Target where
  | room : String → Target
  | user : String → Target
deriving DecidableEq, Repr

/-- Outbound events emitted by the handlers, with their payload fields. -/
inductive Emit where
  | messageNew : String → Message → Option String → Emit
  | messageSent : String → String → String → Option String → Emit
  | messageStatus : Target → String → MessageStatus → String →
      Option String → Option Nat → Option String → Emit
  | messageError : String → Emit
  | unreadUpdate : String → String → Nat → Emit
  | userTyping : String → String → Bool → Emit
deriving DecidableEq, Repr

/-- First element of an association list with the given string key. -/
def getAssoc {α : Type} : List (String × α) → String → Option α
  | [], _ => none
  | p :: rest, k => if p.1 = k then some p.2 else getAssoc rest k

/-- Map.set: replace the binding of the key, or append a new one. -/
def setAssoc {α : Type} : List (String × α) → String → α → List (String × α)
  | [], k, v => [(k, v)]
  | p :: rest, k, v => if p.1 = k then (k, v) :: rest else p :: setAssoc rest k v

/-- Map.delete: drop the binding of the key. -/
def delAssoc {α : Type} : List (String × α) → String → List (String × α)
  | [], _ => []
  | p :: rest, k => if p.1 = k then rest else p :: delAssoc rest k

/-- unreadCount.get(k) followed by the JS default of 0. -/
def getCount (m : List (String × Nat)) (k : String) : Nat :=
  (getAssoc m k).getD 0

/-- unreadCount.set(k, v). -/
def setCount (m : List (String × Nat)) (k : String) (v : Nat) :
    List (String × Nat) :=
  setAssoc m k v

/-- findById over a collection, keyed by the given id projection. -/
def findBy {α : Type} (key : α → String) (k : String) : List α → Option α
  | [] => none
  | x :: rest => if key x = k then some x else findBy key k rest

/-- findByIdAndUpdate / save of an existing document: replace the first
document with the given key; leave the collection unchanged when the key
is absent. -/
def replaceBy {α : Type} (key : α → String) (k : String) (y : α) :
    List α → List α
  | [] => []
  | x :: rest => if key x = k then y :: rest else x :: replaceBy key k y rest

/-- participants.find of the first participant different from the caller
(socket.js line 195 and line 223). -/
def firstOther : List String → String → Option String
  | [], _ => none
  | p :: rest, u => if p = u then firstOther rest u else some p

/-- Fresh Mongo id for a newly constructed message. -/
def freshId (s : ServerState) : String :=
  "m" ++ toString s.messages.length

/-- The message document constructed by the message:send handler
(socket.js lines 177 to 185): note deliveredAt is already set to now and
status is sent. -/
def sentMessage (s : ServerState) (senderId conversationId content
    messageType : String) (now : Nat) : Message :=
  { mid := freshId s
    conversationId := conversationId
    sender := senderId
    content := content
    messageType := messageType
    isRead := false
    readBy := []
    status := MessageStatus.sent
    isSenderOnline := true
    deliveredAt := some now
    readAt := none
    createdAt := now }

/-- The message:send handler (socket.js lines 170 to 266). The handler
performs no validation of its own: the only failure before the first
emission is the Mongoose save rejecting an empty content. When the
conversation id is unknown, the message is saved and message:new and
message:sent are emitted before line 223 dereferences the null
conversation, which throws into the catch and emits message:error.
When the recipient is online, a delivered timer is scheduled 100 ms out. -/
def processSend (s : ServerState) (senderId conversationId content
    messageType : String) (clientTempId : Option String) (now : Nat) :
    ServerState × List Emit :=
  if content = "" then
    (s, [Emit.messageError senderId])
  else
    let m := sentMessage s senderId conversationId content messageType now
    let s1 := { s with messages := s.messages ++ [m] }
    match findBy Conversation.cid conversationId s.conversations with
    | none =>
        (s1, [Emit.messageNew conversationId m clientTempId,
              Emit.messageSent senderId m.mid conversationId clientTempId,
              Emit.messageError senderId])
    | some c =>
        match firstOther c.participants senderId with
        | none => (s1, [Emit.messageError senderId])
        | some otherKey =>
            let cnt := getCount c.unreadCount otherKey
            let c1 := { c with
              lastMessage := some m.mid
              lastMessageContent := some content
              lastMessageTime := some now
              unreadCount := setCount c.unreadCount otherKey (cnt + 1) }
            let s2 := { s1 with
              conversations :=
                replaceBy Conversation.cid c1.cid c1 s1.conversations }
            let unreadEvs :=
              if otherKey ∈ s.connected then
                [Emit.unreadUpdate otherKey conversationId (cnt + 1)]
              else []
            let mainEvs :=
              [Emit.messageNew conversationId m clientTempId,
               Emit.messageSent senderId m.mid conversationId clientTempId]
            if otherKey ∈ s.connected then
              ({ s2 with pending := s2.pending ++
                  [{ messageId := m.mid, conversationId := conversationId,
                     sender := senderId, clientTempId := clientTempId,
                     fireAt := now + 100 }] },
               unreadEvs ++ mainEvs)
            else
              (s2, unreadEvs ++ mainEvs)

/-- Remove the fired timer from the pending list. -/
def removeTimer : List DeliveredTimer → String → List DeliveredTimer
  | [], _ => []
  | t :: rest, k => if t.messageId = k then rest else t :: removeTimer rest k

/-- The scheduled delivered transition (socket.js lines 229 to 252):
findByIdAndUpdate unconditionally sets status to delivered and
deliveredAt to now, with no check of the current status, and the
delivered message:status is emitted to the sender unconditionally. -/
def fireDelivered (s : ServerState) (t : DeliveredTimer) (now : Nat) :
    ServerState × List Emit :=
  ({ s with
      messages := s.messages.map (fun m =>
        if m.mid = t.messageId then
          { m with status := MessageStatus.delivered, deliveredAt := some now }
        else m)
      pending := removeTimer s.pending t.messageId },
   [Emit.messageStatus (Target.user t.sender) t.messageId
      MessageStatus.delivered t.conversationId none none t.clientTempId])

/-- The message:read handler (socket.js lines 268 to 325). The only
guard is that the message exists and the caller is not its sender; the
supplied conversationId is trusted for the room emission and for the
unread counter. -/
def processRead (s : ServerState) (u : String) (conversationId
    messageId : String) (now : Nat) : ServerState × List Emit :=
  match findBy Message.mid messageId s.messages with
  | none => (s, [])
  | some m =>
      if m.sender = u then (s, [])
      else
        let m1 := { m with
          isRead := true
          readAt := some now
          status := MessageStatus.read
          readBy := if m.readBy.contains u then m.readBy
                    else m.readBy ++ [u] }
        let s1 := { s with
          messages := replaceBy Message.mid messageId m1 s.messages }
        let e1 := [Emit.messageStatus (Target.room conversationId) messageId
          MessageStatus.read conversationId (some u) (some now) none]
        match findBy Conversation.cid conversationId s1.conversations with
        | none => (s1, e1)
        | some c =>
            let cnt := getCount c.unreadCount u
            if 0 < cnt then
              let c1 := { c with unreadCount := setCount c.unreadCount u (cnt - 1) }
              let s2 := { s1 with
                conversations :=
                  replaceBy Conversation.cid c1.cid c1 s1.conversations }
              let e2 := (c.participants.filter
                  (fun p => decide (p ∈ s2.connected))).map
                (fun p => Emit.unreadUpdate p conversationId
                  (getCount c1.unreadCount p))
              (s2, e1 ++ e2)
            else (s1, e1)

/-- The updateMany modifier of conversation:markAllRead (socket.js lines
350 to 363): set isRead and readAt and addToSet the reader into readBy on
every unread inbound message of the conversation; the status field is not
touched. -/
def markRead (u : String) (now : Nat) (conversationId : String)
    (m : Message) : Message :=
  if m.conversationId = conversationId ∧ m.sender ≠ u ∧ m.isRead = false then
    { m with
      isRead := true
      readAt := some now
      readBy := if m.readBy.contains u then m.readBy else m.readBy ++ [u] }
  else m

/-- The conversation:markAllRead handler (socket.js lines 342 to 393):
bulk update of the unread inbound messages, then unreadCount of the
caller is set to 0 and one conversation:unreadUpdate is emitted to each
online participant. No message:status event is emitted. -/
def processMarkAllRead (s : ServerState) (u : String)
    (conversationId : String) (now : Nat) : ServerState × List Emit :=
  let s1 := { s with
    messages := s.messages.map (markRead u now conversationId) }
  match findBy Conversation.cid conversationId s1.conversations with
  | none => (s1, [])
  | some c =>
      let c1 := { c with unreadCount := setCount c.unreadCount u 0 }
      let s2 := { s1 with
        conversations :=
          replaceBy Conversation.cid c1.cid c1 s1.conversations }
      let evs := (c.participants.filter
          (fun p => decide (p ∈ s2.connected))).map
        (fun p => Emit.unreadUpdate p conversationId
          (getCount c1.unreadCount p))
      (s2, evs)

/-- Typing-tracker state: typingUsers maps a conversation id to the map
from typing user to the timestamp of their last heartbeat; timers holds
the scheduled 3 second auto-clear callbacks as (conversation, user,
fireAt). -/
structure TypingState where
  typing : List (String × List (String × Nat))
  timers : List (String × String × Nat)
deriving DecidableEq, Repr

/-- The message:typing handler (socket.js lines 125 to 168): upsert or
delete the entry, emit the heartbeat to the rest of the room, and on
isTyping true schedule an auto-clear timer 3000 ms out. -/
def typingHeartbeat (ts : TypingState) (conversationId userId : String)
    (isTyping : Bool) (now : Nat) : TypingState × List Emit :=
  let conv := (getAssoc ts.typing conversationId).getD []
  if isTyping then
    { typing := setAssoc ts.typing conversationId (setAssoc conv userId now)
      timers := ts.timers ++ [(conversationId, userId, now + 3000)] }
    |> fun ts1 => (ts1, [Emit.userTyping conversationId userId true])
  else
    let conv1 := delAssoc conv userId
    let typing1 := if conv1 = [] then delAssoc ts.typing conversationId
                   else setAssoc ts.typing conversationId conv1
    ({ typing := typing1, timers := ts.timers },
     [Emit.userTyping conversationId userId false])

/-- The auto-clear setTimeout callback (socket.js lines 152 to 166): if
the entry is still present it is deleted and isTyping false is emitted.
The stored heartbeat timestamp is not consulted. -/
def typingTimerFire (ts : TypingState) (t : String × String × Nat) :
    TypingState × List Emit :=
  let rest := List.removeAll ts.timers [t]
  match getAssoc ts.typing t.1 with
  | none => ({ ts with timers := rest }, [])
  | some conv =>
      match getAssoc conv t.2.1 with
      | none => ({ ts with timers := rest }, [])
      | some _ =>
          let conv1 := delAssoc conv t.2.1
          let typing1 := if conv1 = [] then delAssoc ts.typing t.1
                         else setAssoc ts.typing t.1 conv1
          ({ typing := typing1, timers := rest },
           [Emit.userTyping t.1 t.2.1 false])

/-- The disconnect typing cleanup (socket.js lines 398 to 414): for each
conversation where the user was typing, delete the entry; isTyping false
is emitted only in the branch where other users remain typing in that
conversation. -/
def typingDisconnect (ts : TypingState) (userId : String) :
    TypingState × List Emit :=
  let step := fun (acc : List (String × List (String × Nat)) × List Emit)
      (e : String × List (String × Nat)) =>
    match getAssoc e.2 userId with
    | none => (acc.1 ++ [e], acc.2)
    | some _ =>
        let conv1 := delAssoc e.2 userId
        if conv1 = [] then (acc.1, acc.2)
        else (acc.1 ++ [(e.1, conv1)],
              acc.2 ++ [Emit.userTyping e.1 userId false])
  let r := ts.typing.foldl step ([], [])
  ({ typing := r.1, timers := ts.timers }, r.2)

/-- The number of messages of a conversation that are unread for a
participant in the sense of the spec invariant: inbound and not yet read
by that participant. -/
def unreadFor (s : ServerState) (conversationId p : String) : Nat :=
  (s.messages.filter (fun m =>
    m.conversationId == conversationId && m.sender != p &&
      !(m.readBy.contains p))).length

/-- The persisted unread counter of a conversation for a user, 0 when the
conversation or the key is absent. -/
def getConvCount (s : ServerState) (conversationId u : String) : Nat :=
  match findBy Conversation.cid conversationId s.conversations with
  | none => 0
  | some c => getCount c.unreadCount u

/-- Recognizer of message:status emissions. -/
def isStatusEmit : Emit → Bool
  | Emit.messageStatus _ _ _ _ _ _ _ => true
  | _ => false

/-- Recognizer of message:status emissions carrying status read. -/
def isReadStatusEmit : Emit → Bool
  | Emit.messageStatus _ _ MessageStatus.read _ _ _ _ => true
  | _ => false

/-- Recognizer of conversation:unreadUpdate emissions. -/
def isUnreadUpdateEmit : Emit → Bool
  | Emit.unreadUpdate _ _ _ => true
  | _ => false

/-- A two-party conversation between users A and B with both counters 0,
used as the seed of the concrete traces. -/
def convAB : Conversation :=
  { cid := "c1"
    participants := ["A", "B"]
    lastMessage := none
    lastMessageContent := none
    lastMessageTime := none
    unreadCount := [("A", 0), ("B", 0)] }

/-- Seed state with conversation c1 and both participants online. -/
def seedOnline : ServerState :=
  { messages := [], conversations := [convAB], connected := ["A", "B"],
    pending := [] }

/-- Seed state with conversation c1 and nobody online. -/
def seedOffline : ServerState :=
  { messages := [], conversations := [convAB], connected := [],
    pending := [] }

example :
    (processSend seedOnline "A" "c1" "hi" "text" none 0).1.messages.length
      = 1 := by decide

example :
    getConvCount (processSend seedOffline "A" "c1" "hi" "text" none 0).1
      "c1" "B" = 1 := by decide

/-- Trace for the delivered-after-read race: A sends to online B, so a
delivered timer for message m0 is scheduled 100 ms out. -/
def c1AfterSend : ServerState × List Emit :=
  processSend seedOnline "A" "c1" "hi" "text" none 0

/-- The delivered timer scheduled by the send above. -/
def c1Timer : DeliveredTimer :=
  { messageId := "m0", conversationId := "c1", sender := "A",
    clientTempId := none, fireAt := 100 }

/-- B reads m0 before the timer fires. -/
def c1AfterRead : ServerState × List Emit :=
  processRead c1AfterSend.1 "B" "c1" "m0" 50

/-- The pending delivered timer then fires. -/
def c1Final : ServerState × List Emit :=
  fireDelivered c1AfterRead.1 c1Timer 100

/-- C1: the claim fails on the code. When the scheduled delivered
transition fires for a message whose status is already read, the
findByIdAndUpdate at socket.js lines 231 to 234 overwrites the status
back to delivered with no status check, and a delivered message:status
is emitted to the sender; the status chain moves backwards from read to
delivered. -/
theorem delivered_timer_overwrites_read :
    c1AfterSend.1.pending = [c1Timer] ∧
    (findBy Message.mid "m0" c1AfterRead.1.messages).map Message.status
      = some MessageStatus.read ∧
    (findBy Message.mid "m0" c1Final.1.messages).map Message.status
      = some MessageStatus.delivered ∧
    Emit.messageStatus (Target.user "A") "m0" MessageStatus.delivered "c1"
      none none none ∈ c1Final.2 := by decide

/-- Trace for the unread-counter divergence: A sends m0 and m1 while B is
offline, then B reads m0 twice. -/
def c2AfterSends : ServerState :=
  (processSend (processSend seedOffline "A" "c1" "hi" "text" none 0).1
    "A" "c1" "yo" "text" none 1).1

/-- B reads message m0 once. -/
def c2AfterOneRead : ServerState :=
  (processRead c2AfterSends "B" "c1" "m0" 2).1

/-- B reads message m0 a second time. -/
def c2AfterTwoReads : ServerState :=
  (processRead c2AfterOneRead "B" "c1" "m0" 3).1

/-- C2: the claim fails on the code. After A sends two messages and B
reads the same one twice, the persisted counter unreadCount of B is 0
while one inbound message of the conversation is still unread by B: the
read handler decrements the counter whenever it is positive
(socket.js lines 303 to 306) instead of tying the decrement to an
unread-to-read transition. -/
theorem unread_counter_diverges_after_double_read :
    getConvCount c2AfterTwoReads "c1" "B" = 0 ∧
    unreadFor c2AfterTwoReads "c1" "B" = 1 := by decide

/-- Typing trace: A heartbeats at 0 ms and again at 2000 ms, so the
timer scheduled by the first heartbeat fires at 3000 ms. -/
def c8AfterBeats : TypingState :=
  (typingHeartbeat
    (typingHeartbeat { typing := [], timers := [] } "c1" "A" true 0).1
    "c1" "A" true 2000).1

/-- The auto-clear timer from the first heartbeat fires at 3000 ms. -/
def c8AfterFire : TypingState × List Emit :=
  typingTimerFire c8AfterBeats ("c1", "A", 3000)

/-- A sole typist state: A heartbeats once and is the only typist. -/
def c8SoleTypist : TypingState :=
  (typingHeartbeat { typing := [], timers := [] } "c1" "A" true 0).1

/-- The sole typist disconnects. -/
def c8AfterDisconnect : TypingState × List Emit :=
  typingDisconnect c8SoleTypist "A"

/-- C8: the claim fails on the code in both halves. The auto-clear
callback (socket.js lines 152 to 166) never consults the stored
heartbeat timestamp: although the last heartbeat of A was at 2000 ms,
the timer from the first heartbeat fires at 3000 ms, clears the entry
and emits isTyping false only 1000 ms after the last heartbeat. And the
disconnect cleanup (socket.js lines 399 to 414) emits isTyping false
only in the branch where other users remain typing, so the disconnect of
the sole typist produces no emission at all. -/
theorem typing_clear_at_first_heartbeat_and_silent_disconnect :
    getAssoc ((getAssoc c8AfterBeats.typing "c1").getD []) "A" = some 2000 ∧
    c8AfterFire.2 = [Emit.userTyping "c1" "A" false] ∧
    getAssoc c8AfterFire.1.typing "c1" = none ∧
    c8AfterDisconnect.2 = [] ∧
    getAssoc c8AfterDisconnect.1.typing "c1" = none := by decide

/-- State with one unread inbound message m0 for B, seed of the
markAllRead counterexample. -/
def c3Seed : ServerState :=
  (processSend seedOffline "A" "c1" "hi" "text" none 0).1

/-- B marks all messages of c1 as read. -/
def c3Result : ServerState × List Emit :=
  processMarkAllRead c3Seed "B" "c1" 10

/-- C3 counterexample: with one unread inbound message, markAllRead
leaves the status field of that message at sent (the updateMany at
socket.js lines 350 to 363 does not touch status) and emits zero
message:status events, against the claimed transition to read and the
claimed one read event per message. -/
theorem markAllRead_counterexample :
    (findBy Message.mid "m0" c3Result.1.messages).map Message.status
      = some MessageStatus.sent ∧
    (findBy Message.mid "m0" c3Result.1.messages).map Message.isRead
      = some true ∧
    (c3Result.2.filter isStatusEmit).length = 0 := by decide

/-- Trace with two unread inbound messages for B, then one read of m0. -/
def c4AfterSends : ServerState :=
  (processSend (processSend seedOffline "A" "c1" "one" "text" none 0).1
    "A" "c1" "two" "text" none 1).1

/-- B reads m0 once. -/
def c4Once : ServerState × List Emit :=
  processRead c4AfterSends "B" "c1" "m0" 2

/-- B reads m0 a second time. -/
def c4Twice : ServerState × List Emit :=
  processRead c4Once.1 "B" "c1" "m0" 3

/-- C4 counterexample: processing the same message:read twice does not
yield the state of processing it once: the counter ends at 0 instead of
1 and the full persisted states differ (readAt is also refreshed). -/
theorem read_idempotence_counterexample :
    getConvCount c4Once.1 "c1" "B" = 1 ∧
    getConvCount c4Twice.1 "c1" "B" = 0 ∧
    c4Twice.1 ≠ c4Once.1 := by decide

/-- A participant sends whitespace-only content. -/
def c5Result : ServerState × List Emit :=
  processSend seedOnline "A" "c1" " " "text" none 0

/-- C5 counterexample: a message:send whose content is the single space,
empty after trimming, is not dropped: the message is persisted, the room
receives message:new, and no message:error is emitted. -/
theorem send_whitespace_counterexample :
    c5Result.1.messages.length = 1 ∧
    Emit.messageNew "c1" (sentMessage seedOnline "A" "c1" " " "text" 0) none
      ∈ c5Result.2 ∧
    Emit.messageError "A" ∉ c5Result.2 := by decide

/-- State with message m0 of conversation c1, then a read by the
stranger C who is not a participant of c1 and is not the sender. -/
def c7Result : ServerState × List Emit :=
  processRead (processSend seedOffline "A" "c1" "hi" "text" none 0).1
    "C" "c1" "m0" 5

/-- C7 counterexample: the read handler checks only that the caller is
not the sender (socket.js line 275); the non-participant C mutates the
message to read. -/
theorem read_nonparticipant_counterexample :
    (findBy Message.mid "m0" c7Result.1.messages).map Message.isRead
      = some true ∧
    (findBy Message.mid "m0" c7Result.1.messages).map Message.status
      = some MessageStatus.read := by decide

/-- A fresh send to an offline recipient, never delivered nor read. -/
def c9Result : ServerState × List Emit :=
  processSend seedOffline "A" "c1" "hi" "text" none 7

/-- C9 counterexample: a message that has status sent and has never been
delivered or read already carries deliveredAt equal to its creation
time: the send handler passes deliveredAt now to the constructor
(socket.js line 182). -/
theorem deliveredAt_counterexample :
    (findBy Message.mid "m0" c9Result.1.messages).map Message.status
      = some MessageStatus.sent ∧
    c9Result.1.pending = [] ∧
    (findBy Message.mid "m0" c9Result.1.messages).map Message.deliveredAt
      = some (some 7) := by decide

/-- A lookup that succeeds returns an element whose key is the searched
key. -/
theorem findBy_eq_key {α : Type} (key : α → String) (k : String)
    (l : List α) (x : α) (h : findBy key k l = some x) : key x = k := by
  induction l with
  | nil => simp [findBy] at h
  | cons a rest ih =>
      by_cases ha : key a = k
      · simp [findBy, ha] at h
        subst h
        exact ha
      · simp [findBy, ha] at h
        exact ih h

/-- After replacing the document with the searched key by a document with
the same key, the lookup returns the replacement. -/
theorem findBy_replaceBy_self {α : Type} (key : α → String) (k : String)
    (l : List α) (x y : α) (hx : findBy key k l = some x)
    (hy : key y = k) : findBy key k (replaceBy key k y l) = some y := by
  induction l with
  | nil => simp [findBy] at hx
  | cons a rest ih =>
      by_cases ha : key a = k
      · simp [replaceBy, ha, findBy, hy]
      · simp [replaceBy, ha, findBy] at hx ⊢
        exact ih hx

/-- Map.set followed by get of the same key yields the set value. -/
theorem getAssoc_setAssoc_self {α : Type} (l : List (String × α))
    (k : String) (v : α) : getAssoc (setAssoc l k v) k = some v := by
  induction l with
  | nil => simp [setAssoc, getAssoc]
  | cons p rest ih =>
      by_cases hp : p.1 = k
      · simp [setAssoc, hp, getAssoc]
      · simp [setAssoc, hp, getAssoc, ih]

/-- unreadCount.set then get of the same key. -/
theorem getCount_setCount_self (l : List (String × Nat)) (k : String)
    (v : Nat) : getCount (setCount l k v) k = v := by
  simp [getCount, setCount, getAssoc_setAssoc_self]

/-- The readBy update of the read handler always leaves the reader as a
member. -/
theorem contains_after_add (rb : List String) (u : String) :
    (if rb.contains u then rb else rb ++ [u]).contains u = true := by
  by_cases h : rb.contains u
  · rw [if_pos h]
    exact h
  · rw [if_neg h]
    simp

/-- markRead does not change the conversation id of a message. -/
theorem markRead_conversationId (u : String) (t : Nat) (cid : String)
    (m : Message) :
    (markRead u t cid m).conversationId = m.conversationId := by
  unfold markRead
  split <;> rfl

/-- markRead does not change the sender of a message. -/
theorem markRead_sender (u : String) (t : Nat) (cid : String)
    (m : Message) : (markRead u t cid m).sender = m.sender := by
  unfold markRead
  split <;> rfl

/-- markRead does not change the status field of a message. -/
theorem markRead_status (u : String) (t : Nat) (cid : String)
    (m : Message) : (markRead u t cid m).status = m.status := by
  unfold markRead
  split <;> rfl

/-- After markRead, every inbound message of the conversation is
isRead. -/
theorem markRead_isRead_of (u : String) (t : Nat) (cid : String)
    (m : Message) (h1 : m.conversationId = cid) (h2 : m.sender ≠ u) :
    (markRead u t cid m).isRead = true := by
  unfold markRead
  by_cases h : m.conversationId = cid ∧ m.sender ≠ u ∧ m.isRead = false
  · rw [if_pos h]
  · rw [if_neg h]
    push_neg at h
    simpa using h h1 h2

/-- A second markRead with the same reader and conversation is the
identity on the result of the first one. -/
theorem markRead_markRead (u : String) (t1 t2 : Nat) (cid : String)
    (m : Message) :
    markRead u t2 cid (markRead u t1 cid m) = markRead u t1 cid m := by
  by_cases h : m.conversationId = cid ∧ m.sender ≠ u ∧ m.isRead = false
  · simp only [markRead, if_pos h]
    rw [if_neg]
    simp
  · simp only [markRead, if_neg h]

/-- The bulk update applied twice equals the bulk update applied once. -/
theorem map_markRead_markRead (u : String) (t1 t2 : Nat) (cid : String)
    (l : List Message) :
    (l.map (markRead u t1 cid)).map (markRead u t2 cid)
      = l.map (markRead u t1 cid) := by
  induction l with
  | nil => rfl
  | cons a rest ih => simp [markRead_markRead, ih]

/-- The bulk update leaves the status column unchanged. -/
theorem map_status_markRead (u : String) (t : Nat) (cid : String)
    (l : List Message) :
    (l.map (markRead u t cid)).map Message.status
      = l.map Message.status := by
  induction l with
  | nil => rfl
  | cons a rest ih => simp [markRead_status, ih]

/-- A batch of unreadUpdate emissions contains no message:status
emission. -/
theorem filter_status_of_unreadUpdates (l : List String) (cid : String)
    (g : String → Nat) :
    (l.map (fun p => Emit.unreadUpdate p cid (g p))).filter isStatusEmit
      = [] := by
  induction l with
  | nil => rfl
  | cons a rest ih => simp [isStatusEmit, ih]

/-- A batch of unreadUpdate emissions is one unreadUpdate per input. -/
theorem length_filter_unreadUpdates (l : List String) (cid : String)
    (g : String → Nat) :
    ((l.map (fun p => Emit.unreadUpdate p cid (g p))).filter
      isUnreadUpdateEmit).length = l.length := by
  induction l with
  | nil => rfl
  | cons a rest ih => simp [isUnreadUpdateEmit, ih]

/-- C6: a message:send whose storage write fails, which in the schema
happens exactly when the content is the empty string rejected by the
required validator, emits message:error to the sender alone and leaves
the whole state unchanged: no message document, no conversation change,
no timer. -/
theorem send_empty_content_error (s : ServerState)
    (senderId conversationId messageType : String)
    (clientTempId : Option String) (now : Nat) :
    processSend s senderId conversationId "" messageType clientTempId now
      = (s, [Emit.messageError senderId]) := by
  simp [processSend]

/-- C9 amended: deliveredAt is assigned already at message creation. For
every send that the store accepts (content not the empty string), the
persisted collection gains exactly the constructed message, and that
message carries status sent together with deliveredAt equal to the
creation time, before any delivered or read transition. -/
theorem send_sets_deliveredAt_at_creation (s : ServerState)
    (senderId conversationId content messageType : String)
    (clientTempId : Option String) (now : Nat) (h : content ≠ "") :
    (processSend s senderId conversationId content messageType clientTempId
        now).1.messages
      = s.messages ++
        [sentMessage s senderId conversationId content messageType now] ∧
    (sentMessage s senderId conversationId content messageType now).status
      = MessageStatus.sent ∧
    (sentMessage s senderId conversationId content messageType
      now).deliveredAt = some now := by
  refine ⟨?_, rfl, rfl⟩
  unfold processSend
  rw [if_neg h]
  cases hc : findBy Conversation.cid conversationId s.conversations with
  | none => rfl
  | some c =>
      cases ho : firstOther c.participants senderId with
      | none => simp [ho]
      | some otherKey =>
          by_cases hon : otherKey ∈ s.connected
          · simp [ho, hon]
          · simp [ho, hon]

/-- Closed instance of the previous theorem at a concrete send. -/
theorem send_sets_deliveredAt_at_creation_witness :
    ("hi" : String) ≠ "" ∧
    ((processSend seedOffline "A" "c1" "hi" "text" none 7).1.messages
      = seedOffline.messages ++
        [sentMessage seedOffline "A" "c1" "hi" "text" 7] ∧
    (sentMessage seedOffline "A" "c1" "hi" "text" 7).status
      = MessageStatus.sent ∧
    (sentMessage seedOffline "A" "c1" "hi" "text" 7).deliveredAt
      = some 7) :=
  ⟨by decide,
   send_sets_deliveredAt_at_creation seedOffline "A" "c1" "hi" "text" none 7
     (by decide)⟩

/-- C5 amended: the message:send handler performs no validation of its
own. A content that the schema accepts (any non-empty string, including
whitespace-only) from any caller, participant or not, is persisted and
announced with message:new to the room and message:sent to the sender,
with no message:error; only the empty content, rejected by the schema,
is dropped with message:error alone and no persistence; and with an
unknown conversationId the message is still persisted and message:new
and message:sent are still emitted, followed by message:error from the
failing tail of the handler. -/
theorem send_no_validation (s : ServerState)
    (u conversationId content messageType : String)
    (clientTempId : Option String) (now : Nat) :
    (content = "" →
      processSend s u conversationId content messageType clientTempId now
        = (s, [Emit.messageError u])) ∧
    (∀ c otherKey, content ≠ "" →
      findBy Conversation.cid conversationId s.conversations = some c →
      firstOther c.participants u = some otherKey →
      (processSend s u conversationId content messageType clientTempId
          now).1.messages
        = s.messages ++
          [sentMessage s u conversationId content messageType now] ∧
      Emit.messageNew conversationId
          (sentMessage s u conversationId content messageType now)
          clientTempId
        ∈ (processSend s u conversationId content messageType clientTempId
            now).2 ∧
      Emit.messageSent u
          (sentMessage s u conversationId content messageType now).mid
          conversationId clientTempId
        ∈ (processSend s u conversationId content messageType clientTempId
            now).2 ∧
      Emit.messageError u
        ∉ (processSend s u conversationId content messageType clientTempId
            now).2) ∧
    (content ≠ "" →
      findBy Conversation.cid conversationId s.conversations = none →
      processSend s u conversationId content messageType clientTempId now
        = ({ s with messages := s.messages ++
              [sentMessage s u conversationId content messageType now] },
           [Emit.messageNew conversationId
              (sentMessage s u conversationId content messageType now)
              clientTempId,
            Emit.messageSent u
              (sentMessage s u conversationId content messageType now).mid
              conversationId clientTempId,
            Emit.messageError u])) := by
  refine ⟨?_, ?_, ?_⟩
  · intro he
    subst he
    simp [processSend]
  · intro c otherKey hne hc ho
    unfold processSend
    rw [if_neg hne, hc]
    by_cases hon : otherKey ∈ s.connected
    · simp [ho, hon]
    · simp [ho, hon]
  · intro hne hc
    unfold processSend
    rw [if_neg hne, hc]

/-- Closed instance of the acceptance conjunct at a whitespace-only
content sent to an existing conversation. -/
theorem send_no_validation_witness :
    (" " : String) ≠ "" ∧
    findBy Conversation.cid "c1" seedOnline.conversations = some convAB ∧
    firstOther convAB.participants "A" = some "B" ∧
    ((processSend seedOnline "A" "c1" " " "text" none 0).1.messages
      = seedOnline.messages ++ [sentMessage seedOnline "A" "c1" " " "text" 0] ∧
    Emit.messageNew "c1" (sentMessage seedOnline "A" "c1" " " "text" 0) none
      ∈ (processSend seedOnline "A" "c1" " " "text" none 0).2 ∧
    Emit.messageSent "A" (sentMessage seedOnline "A" "c1" " " "text" 0).mid
      "c1" none ∈ (processSend seedOnline "A" "c1" " " "text" none 0).2 ∧
    Emit.messageError "A"
      ∉ (processSend seedOnline "A" "c1" " " "text" none 0).2) :=
  ⟨by decide, by decide, by decide,
   (send_no_validation seedOnline "A" "c1" " " "text" none 0).2.1 convAB "B"
     (by decide) (by decide) (by decide)⟩

/-- The message constructed by a send of hi from A in conversation c1 at
time 0, used by several closed instances below. -/
def msgHi : Message := sentMessage seedOffline "A" "c1" "hi" "text" 0

/-- The state holding exactly msgHi, from a send while nobody is
online. -/
def stateHi : ServerState :=
  (processSend seedOffline "A" "c1" "hi" "text" none 0).1

/-- C7 amended: the message:read handler mutates the message exactly when
the messageId exists and the caller is not the sender. No participant
check is performed, so a caller who is not a participant of the
conversation still marks the message read; only an unknown messageId or
a caller equal to the sender leaves the state unchanged. -/
theorem read_requires_only_nonsender (s : ServerState)
    (u conversationId messageId : String) (now : Nat) :
    (findBy Message.mid messageId s.messages = none →
      processRead s u conversationId messageId now = (s, [])) ∧
    (∀ m, findBy Message.mid messageId s.messages = some m → m.sender = u →
      processRead s u conversationId messageId now = (s, [])) ∧
    (∀ m, findBy Message.mid messageId s.messages = some m →
      m.sender ≠ u →
      findBy Message.mid messageId
          (processRead s u conversationId messageId now).1.messages
        = some { m with
            isRead := true,
            readAt := some now,
            status := MessageStatus.read,
            readBy := if m.readBy.contains u then m.readBy
                      else m.readBy ++ [u] }) := by
  refine ⟨?_, ?_, ?_⟩
  · intro hm
    unfold processRead
    rw [hm]
  · intro m hm hs
    unfold processRead
    rw [hm]
    simp [hs]
  · intro m hm hs
    have hkey : m.mid = messageId := findBy_eq_key Message.mid messageId
      s.messages m hm
    unfold processRead
    rw [hm]
    simp only [if_neg hs]
    cases hc : findBy Conversation.cid conversationId s.conversations with
    | none =>
        simp only [hc]
        exact findBy_replaceBy_self Message.mid messageId s.messages m _
          hm hkey
    | some c =>
        simp only [hc]
        by_cases hcnt : 0 < getCount c.unreadCount u
        · simp only [if_pos hcnt]
          exact findBy_replaceBy_self Message.mid messageId s.messages m _
            hm hkey
        · simp only [if_neg hcnt]
          exact findBy_replaceBy_self Message.mid messageId s.messages m _
            hm hkey

/-- Closed instance of the mutation conjunct with the non-participant C
as the reader. -/
theorem read_requires_only_nonsender_witness :
    findBy Message.mid "m0" stateHi.messages = some msgHi ∧
    msgHi.sender ≠ "C" ∧
    findBy Message.mid "m0"
        (processRead stateHi "C" "c1" "m0" 5).1.messages
      = some { msgHi with
          isRead := true,
          readAt := some 5,
          status := MessageStatus.read,
          readBy := if msgHi.readBy.contains "C" then msgHi.readBy
                    else msgHi.readBy ++ ["C"] } :=
  ⟨by decide, by decide,
   (read_requires_only_nonsender stateHi "C" "c1" "m0" 5).2.2 msgHi
     (by decide) (by decide)⟩

/-- C10: the message:read handler trusts the client-supplied
conversationId. Whenever the message exists and the caller is not its
sender, and the supplied conversation exists with a positive unread
counter for the caller, the message is marked read, the read
message:status is emitted to the room named by the supplied id, and the
unread counter of the supplied conversation is decremented, with no
check that the message belongs to that conversation. -/
theorem read_trusts_supplied_conversation (s : ServerState)
    (u suppliedId messageId : String) (now : Nat) (m : Message)
    (c : Conversation)
    (hm : findBy Message.mid messageId s.messages = some m)
    (hs : m.sender ≠ u)
    (hc : findBy Conversation.cid suppliedId s.conversations = some c)
    (hcnt : 0 < getCount c.unreadCount u) :
    findBy Message.mid messageId
        (processRead s u suppliedId messageId now).1.messages
      = some { m with
          isRead := true,
          readAt := some now,
          status := MessageStatus.read,
          readBy := if m.readBy.contains u then m.readBy
                    else m.readBy ++ [u] } ∧
    Emit.messageStatus (Target.room suppliedId) messageId
        MessageStatus.read suppliedId (some u) (some now) none
      ∈ (processRead s u suppliedId messageId now).2 ∧
    getConvCount (processRead s u suppliedId messageId now).1 suppliedId u
      = getCount c.unreadCount u - 1 := by
  have hkeyM : m.mid = messageId := findBy_eq_key Message.mid messageId
    s.messages m hm
  have hkeyC : c.cid = suppliedId := findBy_eq_key Conversation.cid
    suppliedId s.conversations c hc
  subst hkeyM
  subst hkeyC
  unfold processRead
  rw [hm]
  simp only [if_neg hs, hc, if_pos hcnt]
  refine ⟨?_, ?_, ?_⟩
  · exact findBy_replaceBy_self Message.mid m.mid s.messages m _ hm rfl
  · simp
  · have hrep := findBy_replaceBy_self Conversation.cid c.cid
      s.conversations c
      { c with
        unreadCount := setCount c.unreadCount u (getCount c.unreadCount u - 1) }
      hc rfl
    unfold getConvCount
    simp only []
    rw [hrep]
    exact getCount_setCount_self c.unreadCount u _

/-- A second conversation c2 between the same users with one unread
message counted for B, used to instantiate the trust theorem with a
supplied conversation different from the one the message belongs to. -/
def convC2 : Conversation :=
  { cid := "c2"
    participants := ["A", "B"]
    lastMessage := none
    lastMessageContent := none
    lastMessageTime := none
    unreadCount := [("A", 0), ("B", 1)] }

/-- State holding message msgHi of conversation c1 alongside the
unrelated conversation c2. -/
def crossState : ServerState :=
  { messages := [msgHi], conversations := [convAB, convC2],
    connected := [], pending := [] }

/-- Closed instance: B reads the c1 message m0 while supplying the
unrelated conversation id c2, and it is the counter of c2 for B that is
decremented while the event goes to room c2. -/
theorem read_trusts_supplied_conversation_witness :
    findBy Message.mid "m0" crossState.messages = some msgHi ∧
    msgHi.sender ≠ "B" ∧
    findBy Conversation.cid "c2" crossState.conversations = some convC2 ∧
    0 < getCount convC2.unreadCount "B" ∧
    msgHi.conversationId ≠ "c2" ∧
    (findBy Message.mid "m0"
        (processRead crossState "B" "c2" "m0" 9).1.messages
      = some { msgHi with
          isRead := true,
          readAt := some 9,
          status := MessageStatus.read,
          readBy := if msgHi.readBy.contains "B" then msgHi.readBy
                    else msgHi.readBy ++ ["B"] } ∧
    Emit.messageStatus (Target.room "c2") "m0" MessageStatus.read "c2"
        (some "B") (some 9) none
      ∈ (processRead crossState "B" "c2" "m0" 9).2 ∧
    getConvCount (processRead crossState "B" "c2" "m0" 9).1 "c2" "B"
      = getCount convC2.unreadCount "B" - 1) :=
  ⟨by decide, by decide, by decide, by decide, by decide,
   read_trusts_supplied_conversation crossState "B" "c2" "m0" 9 msgHi
     convC2 (by decide) (by decide) (by decide) (by decide)⟩

/-- State equation of one successful message:read: the message is
replaced by its read-marked version and, in the supplied conversation,
counter for the caller is decremented by one. -/
theorem processRead_state (s : ServerState) (u : String) (m : Message)
    (c : Conversation) (t : Nat)
    (hm : findBy Message.mid m.mid s.messages = some m)
    (hs : m.sender ≠ u)
    (hc : findBy Conversation.cid c.cid s.conversations = some c)
    (hcnt : 0 < getCount c.unreadCount u) :
    (processRead s u c.cid m.mid t).1
      = { s with
          messages := replaceBy Message.mid m.mid
            { m with
              isRead := true,
              readAt := some t,
              status := MessageStatus.read,
              readBy := if m.readBy.contains u then m.readBy
                        else m.readBy ++ [u] } s.messages,
          conversations := replaceBy Conversation.cid c.cid
            { c with
              unreadCount := setCount c.unreadCount u
                (getCount c.unreadCount u - 1) } s.conversations } := by
  unfold processRead
  rw [hm]
  simp only [if_neg hs, hc, if_pos hcnt]

/-- After one successful read, the stored message is the read-marked
version of the original. -/
theorem processRead_findBy (s : ServerState) (u : String) (m : Message)
    (c : Conversation) (t : Nat)
    (hm : findBy Message.mid m.mid s.messages = some m)
    (hs : m.sender ≠ u)
    (hc : findBy Conversation.cid c.cid s.conversations = some c)
    (hcnt : 0 < getCount c.unreadCount u) :
    findBy Message.mid m.mid (processRead s u c.cid m.mid t).1.messages
      = some { m with
          isRead := true,
          readAt := some t,
          status := MessageStatus.read,
          readBy := if m.readBy.contains u then m.readBy
                    else m.readBy ++ [u] } := by
  rw [processRead_state s u m c t hm hs hc hcnt]
  exact findBy_replaceBy_self Message.mid m.mid s.messages m _ hm rfl

/-- After one successful read, the counter of the supplied conversation
for the reader has gone down by one. -/
theorem processRead_getConvCount (s : ServerState) (u : String)
    (m : Message) (c : Conversation) (t : Nat)
    (hm : findBy Message.mid m.mid s.messages = some m)
    (hs : m.sender ≠ u)
    (hc : findBy Conversation.cid c.cid s.conversations = some c)
    (hcnt : 0 < getCount c.unreadCount u) :
    getConvCount (processRead s u c.cid m.mid t).1 c.cid u
      = getCount c.unreadCount u - 1 := by
  rw [processRead_state s u m c t hm hs hc hcnt]
  unfold getConvCount
  simp only []
  rw [findBy_replaceBy_self Conversation.cid c.cid s.conversations c
    { c with
      unreadCount := setCount c.unreadCount u (getCount c.unreadCount u - 1) }
    hc rfl]
  exact getCount_setCount_self c.unreadCount u _

/-- C4 amended: message:read is not idempotent per (message, reader).
The second read of the same message by the same reader mutates state
again: with the counter at k at the outset (k at least 2 so that both
decrements fire), the counter ends at k - 1 after one read but at k - 2
after two, and the second read refreshes readAt to its own time while
isRead, status and readBy keep the values of the first read. A read
with an unknown messageId remains a no-op. -/
theorem second_read_double_decrements (s : ServerState)
    (u conversationId messageId : String) (t1 t2 : Nat) (m : Message)
    (c : Conversation)
    (hm : findBy Message.mid messageId s.messages = some m)
    (hs : m.sender ≠ u)
    (hc : findBy Conversation.cid conversationId s.conversations = some c)
    (h2 : 2 ≤ getCount c.unreadCount u) :
    getConvCount (processRead s u conversationId messageId t1).1
        conversationId u
      = getCount c.unreadCount u - 1 ∧
    getConvCount (processRead
        (processRead s u conversationId messageId t1).1
        u conversationId messageId t2).1 conversationId u
      = getCount c.unreadCount u - 2 ∧
    findBy Message.mid messageId
        (processRead (processRead s u conversationId messageId t1).1
          u conversationId messageId t2).1.messages
      = some { m with
          isRead := true,
          readAt := some t2,
          status := MessageStatus.read,
          readBy := if m.readBy.contains u then m.readBy
                    else m.readBy ++ [u] } ∧
    (∀ s2 : ServerState, findBy Message.mid messageId s2.messages = none →
      processRead s2 u conversationId messageId t2 = (s2, [])) := by
  have hkeyM : m.mid = messageId := findBy_eq_key Message.mid messageId
    s.messages m hm
  have hkeyC : c.cid = conversationId := findBy_eq_key Conversation.cid
    conversationId s.conversations c hc
  subst hkeyM
  subst hkeyC
  have hcnt : 0 < getCount c.unreadCount u := by omega
  have hr1 := processRead_state s u m c t1 hm hs hc hcnt
  have hm1 : findBy Message.mid m.mid
      (processRead s u c.cid m.mid t1).1.messages
      = some { m with
          isRead := true,
          readAt := some t1,
          status := MessageStatus.read,
          readBy := if m.readBy.contains u then m.readBy
                    else m.readBy ++ [u] } := by
    rw [hr1]
    exact findBy_replaceBy_self Message.mid m.mid s.messages m _ hm rfl
  have hc1 : findBy Conversation.cid c.cid
      (processRead s u c.cid m.mid t1).1.conversations
      = some { c with
          unreadCount := setCount c.unreadCount u
            (getCount c.unreadCount u - 1) } := by
    rw [hr1]
    exact findBy_replaceBy_self Conversation.cid c.cid s.conversations c _
      hc rfl
  have hcount1 : getCount (setCount c.unreadCount u
      (getCount c.unreadCount u - 1)) u = getCount c.unreadCount u - 1 :=
    getCount_setCount_self c.unreadCount u _
  have hcnt1 : 0 < getCount (setCount c.unreadCount u
      (getCount c.unreadCount u - 1)) u := by
    rw [hcount1]
    omega
  have hrb : (if (if m.readBy.contains u then m.readBy
        else m.readBy ++ [u]).contains u then
        (if m.readBy.contains u then m.readBy else m.readBy ++ [u])
      else
        (if m.readBy.contains u then m.readBy else m.readBy ++ [u]) ++ [u])
      = (if m.readBy.contains u then m.readBy else m.readBy ++ [u]) :=
    if_pos (contains_after_add m.readBy u)
  refine ⟨?_, ?_, ?_, ?_⟩
  · exact processRead_getConvCount s u m c t1 hm hs hc hcnt
  · have h := processRead_getConvCount (processRead s u c.cid m.mid t1).1 u
      { m with
        isRead := true,
        readAt := some t1,
        status := MessageStatus.read,
        readBy := if m.readBy.contains u then m.readBy
                  else m.readBy ++ [u] }
      { c with
        unreadCount := setCount c.unreadCount u
          (getCount c.unreadCount u - 1) }
      t2 hm1 hs hc1 hcnt1
    simp only [] at h
    rw [hcount1] at h
    rw [h]
    omega
  · have h := processRead_findBy (processRead s u c.cid m.mid t1).1 u
      { m with
        isRead := true,
        readAt := some t1,
        status := MessageStatus.read,
        readBy := if m.readBy.contains u then m.readBy
                  else m.readBy ++ [u] }
      { c with
        unreadCount := setCount c.unreadCount u
          (getCount c.unreadCount u - 1) }
      t2 hm1 hs hc1 hcnt1
    simp only [] at h
    rw [hrb] at h
    exact h
  · intro s2 hn
    unfold processRead
    rw [hn]

/-- Conversation c1 with two unread messages counted for B. -/
def convAB2 : Conversation :=
  { convAB with unreadCount := [("A", 0), ("B", 2)] }

/-- Second inbound message for B in conversation c1. -/
def msgYo : Message :=
  { sentMessage seedOffline "A" "c1" "yo" "text" 1 with mid := "m1" }

/-- State with the two inbound messages m0 and m1 and the counter of B
at 2. -/
def twoUnreadState : ServerState :=
  { messages := [msgHi, msgYo], conversations := [convAB2],
    connected := [], pending := [] }

/-- Closed instance of the double-decrement theorem: two reads of m0 by
B drive the counter from 2 to 0 although only one message was read. -/
theorem second_read_double_decrements_witness :
    findBy Message.mid "m0" twoUnreadState.messages = some msgHi ∧
    msgHi.sender ≠ "B" ∧
    findBy Conversation.cid "c1" twoUnreadState.conversations
      = some convAB2 ∧
    2 ≤ getCount convAB2.unreadCount "B" ∧
    (getConvCount (processRead twoUnreadState "B" "c1" "m0" 2).1 "c1" "B"
      = getCount convAB2.unreadCount "B" - 1 ∧
    getConvCount (processRead
        (processRead twoUnreadState "B" "c1" "m0" 2).1
        "B" "c1" "m0" 3).1 "c1" "B"
      = getCount convAB2.unreadCount "B" - 2 ∧
    findBy Message.mid "m0"
        (processRead (processRead twoUnreadState "B" "c1" "m0" 2).1
          "B" "c1" "m0" 3).1.messages
      = some { msgHi with
          isRead := true,
          readAt := some 3,
          status := MessageStatus.read,
          readBy := if msgHi.readBy.contains "B" then msgHi.readBy
                    else msgHi.readBy ++ ["B"] } ∧
    (∀ s2 : ServerState, findBy Message.mid "m0" s2.messages = none →
      processRead s2 "B" "c1" "m0" 3 = (s2, []))) :=
  ⟨by decide, by decide, by decide, by decide,
   second_read_double_decrements twoUnreadState "B" "c1" "m0" 2 3 msgHi
     convAB2 (by decide) (by decide) (by decide) (by decide)⟩

/-- State and emission equation of one conversation:markAllRead against
an existing conversation. -/
theorem processMarkAllRead_state (s : ServerState) (u : String)
    (c : Conversation) (t : Nat)
    (hc : findBy Conversation.cid c.cid s.conversations = some c) :
    processMarkAllRead s u c.cid t
      = ({ s with
           messages := s.messages.map (markRead u t c.cid),
           conversations := replaceBy Conversation.cid c.cid
             { c with unreadCount := setCount c.unreadCount u 0 }
             s.conversations },
         (c.participants.filter (fun p => decide (p ∈ s.connected))).map
           (fun p => Emit.unreadUpdate p c.cid
             (getCount (setCount c.unreadCount u 0) p))) := by
  unfold processMarkAllRead
  simp only [hc]

/-- C3 amended: conversation:markAllRead from caller u sets isRead (not
the status field, which is unchanged for every message) on every unread
inbound message, sets unreadCount of the caller to 0, emits zero
message:status events, and emits exactly one conversation:unreadUpdate
per online participant; a second markAllRead modifies no message, keeps
the counter at 0 and again emits zero message:status events. -/
theorem markAllRead_behavior (s : ServerState) (u conversationId : String)
    (t1 t2 : Nat) (c : Conversation)
    (hc : findBy Conversation.cid conversationId s.conversations
      = some c) :
    (∀ m ∈ (processMarkAllRead s u conversationId t1).1.messages,
      m.conversationId = conversationId → m.sender ≠ u →
      m.isRead = true) ∧
    (processMarkAllRead s u conversationId t1).1.messages.map
        Message.status
      = s.messages.map Message.status ∧
    getConvCount (processMarkAllRead s u conversationId t1).1
        conversationId u = 0 ∧
    (processMarkAllRead s u conversationId t1).2.filter isStatusEmit
      = [] ∧
    ((processMarkAllRead s u conversationId t1).2.filter
        isUnreadUpdateEmit).length
      = (c.participants.filter (fun p => decide (p ∈ s.connected))).length ∧
    (processMarkAllRead (processMarkAllRead s u conversationId t1).1
        u conversationId t2).1.messages
      = (processMarkAllRead s u conversationId t1).1.messages ∧
    getConvCount (processMarkAllRead
        (processMarkAllRead s u conversationId t1).1
        u conversationId t2).1 conversationId u = 0 ∧
    (processMarkAllRead (processMarkAllRead s u conversationId t1).1
        u conversationId t2).2.filter isStatusEmit = [] := by
  have hkeyC : c.cid = conversationId := findBy_eq_key Conversation.cid
    conversationId s.conversations c hc
  subst hkeyC
  have hr1 := processMarkAllRead_state s u c t1 hc
  have hc1 : findBy Conversation.cid c.cid
      (processMarkAllRead s u c.cid t1).1.conversations
      = some { c with unreadCount := setCount c.unreadCount u 0 } := by
    rw [hr1]
    exact findBy_replaceBy_self Conversation.cid c.cid s.conversations c _
      hc rfl
  have hr2 := processMarkAllRead_state (processMarkAllRead s u c.cid t1).1
    u { c with unreadCount := setCount c.unreadCount u 0 } t2 hc1
  simp only [] at hr2
  refine ⟨?_, ?_, ?_, ?_, ?_, ?_, ?_, ?_⟩
  · intro m hmem h1 h2
    rw [hr1] at hmem
    simp only [] at hmem
    obtain ⟨m0, hm0, rfl⟩ := List.mem_map.1 hmem
    rw [markRead_conversationId] at h1
    rw [markRead_sender] at h2
    exact markRead_isRead_of u t1 c.cid m0 h1 h2
  · rw [hr1]
    exact map_status_markRead u t1 c.cid s.messages
  · unfold getConvCount
    rw [hc1]
    exact getCount_setCount_self c.unreadCount u 0
  · rw [hr1]
    simp only []
    exact filter_status_of_unreadUpdates
      (c.participants.filter (fun p => decide (p ∈ s.connected))) c.cid _
  · rw [hr1]
    simp only []
    exact length_filter_unreadUpdates
      (c.participants.filter (fun p => decide (p ∈ s.connected))) c.cid _
  · rw [hr2, hr1]
    simp only []
    exact map_markRead_markRead u t1 t2 c.cid s.messages
  · unfold getConvCount
    rw [hr2]
    simp only []
    rw [findBy_replaceBy_self Conversation.cid c.cid
      (processMarkAllRead s u c.cid t1).1.conversations
      { c with unreadCount := setCount c.unreadCount u 0 }
      { c with unreadCount := setCount (setCount c.unreadCount u 0) u 0 }
      hc1 rfl]
    exact getCount_setCount_self (setCount c.unreadCount u 0) u 0
  · rw [hr2]
    simp only []
    exact filter_status_of_unreadUpdates
      (c.participants.filter
        (fun p => decide (p ∈ (processMarkAllRead s u c.cid t1).1.connected)))
      c.cid _

/-- Conversation c1 as it stands inside stateHi, with one unread counted
for B. -/
def convAB1 : Conversation :=
  { convAB with
    lastMessage := some "m0",
    lastMessageContent := some "hi",
    lastMessageTime := some 0,
    unreadCount := [("A", 0), ("B", 1)] }

/-- Closed instance of the markAllRead behavior at the one-unread
state. -/
theorem markAllRead_behavior_witness :
    findBy Conversation.cid "c1" stateHi.conversations = some convAB1 ∧
    ((∀ m ∈ (processMarkAllRead stateHi "B" "c1" 10).1.messages,
      m.conversationId = "c1" → m.sender ≠ "B" → m.isRead = true) ∧
    (processMarkAllRead stateHi "B" "c1" 10).1.messages.map Message.status
      = stateHi.messages.map Message.status ∧
    getConvCount (processMarkAllRead stateHi "B" "c1" 10).1 "c1" "B" = 0 ∧
    (processMarkAllRead stateHi "B" "c1" 10).2.filter isStatusEmit = [] ∧
    ((processMarkAllRead stateHi "B" "c1" 10).2.filter
        isUnreadUpdateEmit).length
      = (convAB1.participants.filter
          (fun p => decide (p ∈ stateHi.connected))).length ∧
    (processMarkAllRead (processMarkAllRead stateHi "B" "c1" 10).1
        "B" "c1" 11).1.messages
      = (processMarkAllRead stateHi "B" "c1" 10).1.messages ∧
    getConvCount (processMarkAllRead
        (processMarkAllRead stateHi "B" "c1" 10).1
        "B" "c1" 11).1 "c1" "B" = 0 ∧
    (processMarkAllRead (processMarkAllRead stateHi "B" "c1" 10).1
        "B" "c1" 11).2.filter isStatusEmit = []) :=
  ⟨by decide, markAllRead_behavior stateHi "B" "c1" 10 11 convAB1
    (by decide)⟩

end ChatApp
